import Mathlib

/-!
Verification development for the liam-esp mower control core.

Shallow embedding of the state controller (src/src/state_controller.cpp),
the REST/MQTT API glue that drives it (src/src/api.cpp), the wraparound-safe
timer (src/src/state_controller.cpp, Timer part) and the orientation
estimator (src/unnamed/part_000, IO_Accelerometer).

Machine integers are modelled as Nat/Int with explicit `% 2^32` where the
C++ code relies on unsigned 32-bit wraparound.  Hardware reads (the `millis()`
counter, IMU registers) are passed in as explicit arguments.  Definitions
whose C++ bodies are not part of src/ (only declared or called there) are
modelled from the specification and say so in their doc comment.
-/

set_option linter.unusedVariables false

namespace Liam

/-- Modelled from the spec: the closed `MowerStateKind` enumeration
(`Definitions::MOWER_STATES` lives in definitions.h, which is not in src/;
api.cpp references the `MANUAL` member and mentions `TEST` in its examples). -/
inductive MOWER_STATES where
  | DOCKED
  | LAUNCHING
  | MOWING
  | DOCKING
  | CHARGING
  | STUCK
  | FLIPPED
  | PAUSED
  | DEMO
  | MANUAL
  | TEST
deriving DecidableEq, Repr

/-- One concrete mower state instance (`AbstractState` subclass object);
only its identity (its kind) is relevant to the controller-level claims. -/
structure StateUnit where
  kind : MOWER_STATES
deriving DecidableEq, Repr

/-- Hook invocations a transition could perform on state units.  The C++
`setState` body performs none; traces of these events record what it does. -/
inductive HookEvent where
  | onExitCall (k : MOWER_STATES)
  | onEnterCall (k : MOWER_STATES)
deriving DecidableEq, Repr

/-- The `StateController` object: the `stateLookup` map (a missing key reads
as `none`, matching the null pointer a `std::map` default-inserts) and the
`currentStateInstance` pointer (`none` = null). -/
structure StateController where
  stateLookup : MOWER_STATES → Option StateUnit
  currentStateInstance : Option StateUnit

/-- `StateController::setState` (state_controller.cpp lines 34-37): a single
assignment `currentStateInstance = stateLookup[newState]`; the publish call
is commented out and no `onExit`/`onEnter` hook is invoked, so the returned
trace of hook events is empty. -/
def setState (c : StateController) (newState : MOWER_STATES) :
    StateController × List HookEvent :=
  ({ c with currentStateInstance := c.stateLookup newState }, [])

/-- The lookup table built by the `StateController` constructor
(state_controller.cpp lines 13-21): exactly nine kinds receive an instance;
`MANUAL` and `TEST` are never inserted. -/
def initialLookup : MOWER_STATES → Option StateUnit
  | .DOCKED => some { kind := .DOCKED }
  | .LAUNCHING => some { kind := .LAUNCHING }
  | .MOWING => some { kind := .MOWING }
  | .DOCKING => some { kind := .DOCKING }
  | .CHARGING => some { kind := .CHARGING }
  | .STUCK => some { kind := .STUCK }
  | .FLIPPED => some { kind := .FLIPPED }
  | .PAUSED => some { kind := .PAUSED }
  | .DEMO => some { kind := .DEMO }
  | .MANUAL => none
  | .TEST => none

/-- `StateController::StateController` (state_controller.cpp lines 12-24):
fill `stateLookup` with the nine instances, then `setState(initialState)`. -/
def construct (initialState : MOWER_STATES) : StateController × List HookEvent :=
  setState { stateLookup := initialLookup, currentStateInstance := none } initialState

/-- `StateController::getStateInstance` (state_controller.cpp lines 39-41). -/
def getStateInstance (c : StateController) : Option StateUnit :=
  c.currentStateInstance

/-- Modelled from the spec: `setUserChangableState` parses a human/API
supplied state name into a `MowerStateKind` (its body is not in src/, only
its callers in api.cpp are); unknown names map to `none` (fails closed). -/
def parseStateName : String → Option MOWER_STATES
  | "DOCKED" => some .DOCKED
  | "LAUNCHING" => some .LAUNCHING
  | "MOWING" => some .MOWING
  | "DOCKING" => some .DOCKING
  | "CHARGING" => some .CHARGING
  | "STUCK" => some .STUCK
  | "FLIPPED" => some .FLIPPED
  | "PAUSED" => some .PAUSED
  | "DEMO" => some .DEMO
  | "MANUAL" => some .MANUAL
  | "TEST" => some .TEST
  | _ => none

/-- Modelled from the spec: `StateController::setUserChangableState(name)`
(body not in src/) parses the name (unknown name returns false without
mutating state), then delegates to the current state's `acceptsUserCommand`
policy before calling `setState`; returns false and leaves state unchanged
on rejection.  The per-state policy is the parameter `accepts`. -/
def setUserChangableState (accepts : MOWER_STATES → MOWER_STATES → Bool)
    (c : StateController) (name : String) : Bool × StateController :=
  match parseStateName name with
  | none => (false, c)
  | some k =>
    match c.currentStateInstance with
    | none => (false, c)
    | some u =>
      if accepts u.kind k then (true, (setState c k).1) else (false, c)

/-- The `/api/v1/manual/forward` PUT handler (api.cpp lines 476-479): it
calls `stateController.setState(Definitions::MOWER_STATES::MANUAL)` directly,
bypassing `setUserChangableState` (the backward/stop/cutter handlers do the
same).  Only the state-controller effect is modelled. -/
def manualForwardHandler (c : StateController) : StateController :=
  (setState c .MANUAL).1

/-! ## Timer (src/src/state_controller.cpp, Timer part, lines 90-112)

`millis()` is the hardware 32-bit millisecond counter; it is modelled as
the true elapsed time `t : Nat` reduced mod `2^32`.  Each member function
takes the true time of its call as an explicit argument. -/

/-- One more than the largest `unsigned long` value on the ESP32 (32 bits). -/
def ULONG_MOD : Nat := 4294967296

/-- The wrapped hardware counter `millis()` at true time `t`. -/
def millis (t : Nat) : Nat := t % ULONG_MOD

/-- The `Timer` object: a single `previousMillis` mark. -/
structure Timer where
  previousMillis : Nat
deriving DecidableEq, Repr

/-- `Timer::getMillis` (lines 94-97): stores `millis()` into
`previousMillis` and returns that same current counter value. -/
def Timer.getMillis (tm : Timer) (t : Nat) : Nat × Timer :=
  (millis t, { previousMillis := millis t })

/-- `Timer::millisSinceLast` (lines 99-107): unsigned 32-bit subtraction
`currentMillis - previousMillis`, then the mark is reset to now.  Returns
the difference and the updated timer. -/
def Timer.millisSinceLast (tm : Timer) (t : Nat) : Nat × Timer :=
  ((millis t + ULONG_MOD - tm.previousMillis) % ULONG_MOD,
   { previousMillis := millis t })

/-- `Timer::hasAmountTimePassed` (lines 109-112): unsigned 32-bit
subtraction compared against the threshold; `previousMillis` is not
written, which the returned (unchanged) timer makes explicit. -/
def Timer.hasAmountTimePassed (tm : Timer) (t amount : Nat) : Bool × Timer :=
  (decide ((millis t + ULONG_MOD - tm.previousMillis) % ULONG_MOD ≥ amount), tm)

/-! ## Orientation estimator (src/unnamed/part_000, IO_Accelerometer)

The IMU samples are `int16_t` values modelled as `Int`; the per-axis ring
buffers (C arrays of length `GYRO_MEDIAN_SAMPLES`) are modelled as functions
`Nat → Int` read on indices `< n`, with the window length `n` a parameter
(its value lives in definitions.h, which is not in src/).  The float
`atan2`/degree-conversion/rounding block that turns the five medians into
the published integer orientation is abstracted as the parameter `derive`:
claim C7 is about the median filter, which is independent of that block. -/

/-- The published `orientation` snapshot: integer degrees (the source
stores `roundf` results). -/
structure orientation where
  pitch : Int
  roll : Int
  heading : Int
deriving DecidableEq, Repr

/-- One raw IMU sample: the five axes the source buffers (part_000 lines
80-84; the gyro axes are read but never buffered, and `mz` is unused). -/
structure ImuReading where
  ax : Int
  ay : Int
  az : Int
  mx : Int
  my : Int
deriving DecidableEq, Repr

/-- The `IO_Accelerometer` object state: availability flag, whether the
50 ms sampling ticker was attached, the log lines emitted, the five sample
ring buffers with their shared write index, and the published orientation. -/
structure IO_Accelerometer where
  available : Bool
  tickerAttached : Bool
  logLines : List String
  ax_sample : Nat → Int
  ay_sample : Nat → Int
  az_sample : Nat → Int
  mx_sample : Nat → Int
  my_sample : Nat → Int
  medianIndex : Nat
  currentOrientation : orientation

/-- `IO_Accelerometer::isAvailable` (part_000 lines 41-43). -/
def isAvailable (st : IO_Accelerometer) : Bool :=
  st.available

/-- `IO_Accelerometer::getOrientation` (part_000 lines 45-47). -/
def getOrientation (st : IO_Accelerometer) : orientation :=
  st.currentOrientation

/-- `IO_Accelerometer::isFlipped` (part_000 lines 49-55).  The threshold
`Definitions::TILT_ANGLE_MAX` lives in definitions.h (not in src/), so it
is the parameter `T`; every theorem below holds for an arbitrary `T`. -/
def isFlipped (T : Int) (st : IO_Accelerometer) : Bool :=
  if st.available = false then
    false
  else
    decide (|st.currentOrientation.pitch| > T) ||
      decide (|st.currentOrientation.roll| > T)

/-- Insertion of one element into an already sorted list (ascending). -/
def insertSorted (x : Int) : List Int → List Int
  | [] => [x]
  | y :: ys => if x ≤ y then x :: y :: ys else y :: insertSorted x ys

/-- Ascending insertion sort. -/
def sortList (l : List Int) : List Int :=
  l.foldr insertSorted []

/-- Modelled from the spec: `Utils::calculateMedian` (utils.h is not in
src/) — "compute the per-axis median over the window": sort the window and
take the middle element. -/
def calculateMedian (l : List Int) : Int :=
  (sortList l).getD (l.length / 2) 0

/-- The window of buffer `buf` actually read by the median: its first `n`
cells. -/
def window (n : Nat) (buf : Nat → Int) : List Int :=
  (List.range n).map buf

/-- `IO_Accelerometer::getReadings` (part_000 lines 57-121) with window
length `n`: if unavailable it does nothing; otherwise it writes the fresh
sample into each ring buffer at `medianIndex`, advances `medianIndex`
mod `n`, computes the five per-axis medians and publishes the orientation
`derive` yields from them (`derive` stands for the float atan2 / degree /
declination / rounding block of lines 94-119). -/
def getReadings (n : Nat) (derive : Int → Int → Int → Int → Int → orientation)
    (r : ImuReading) (st : IO_Accelerometer) : IO_Accelerometer :=
  if st.available then
    let axB : Nat → Int := fun j => if j = st.medianIndex then r.ax else st.ax_sample j
    let ayB : Nat → Int := fun j => if j = st.medianIndex then r.ay else st.ay_sample j
    let azB : Nat → Int := fun j => if j = st.medianIndex then r.az else st.az_sample j
    let mxB : Nat → Int := fun j => if j = st.medianIndex then r.mx else st.mx_sample j
    let myB : Nat → Int := fun j => if j = st.medianIndex then r.my else st.my_sample j
    { st with
      ax_sample := axB, ay_sample := ayB, az_sample := azB,
      mx_sample := mxB, my_sample := myB,
      medianIndex := (st.medianIndex + 1) % n,
      currentOrientation :=
        derive (calculateMedian (window n axB)) (calculateMedian (window n ayB))
          (calculateMedian (window n azB)) (calculateMedian (window n mxB))
          (calculateMedian (window n myB)) }
  else
    st

/-- The failure log line of `IO_Accelerometer::start` (part_000 line 22). -/
def accelInitFailureMsg : String :=
  "Failed to initialize gyro/accelerometer/compass, check connections!"

/-- The success log line of `IO_Accelerometer::start` (part_000 line 24). -/
def accelInitSuccessMsg : String :=
  "Gyro/accelerometer/compass init success."

/-- `IO_Accelerometer::start` (part_000 lines 19-39).  `beginSuccess` is
the result of `imu.begin()`; `prime` stands for the hardware-dependent
success path work (`imu.calibrate` plus the `GYRO_MEDIAN_SAMPLES` priming
calls to `getReadings`, which read live IMU registers).  On failure the
function only logs the error: `available` is not set, no ticker is
attached, and it returns normally (no abort). -/
def start (beginSuccess : Bool)
    (prime : IO_Accelerometer → IO_Accelerometer)
    (st : IO_Accelerometer) : IO_Accelerometer :=
  if beginSuccess = false then
    { st with logLines := st.logLines ++ [accelInitFailureMsg] }
  else
    { prime { st with available := true,
                      logLines := st.logLines ++ [accelInitSuccessMsg] } with
      tickerAttached := true }

/-- Modelled from the spec: the estimator starts `Uninitialized` — the
`available` flag is false and nothing has been logged or published until
`start` runs (the member initializers live in io_accelerometer.h, which is
not in src/). -/
def initialAccelerometer : IO_Accelerometer :=
  { available := false
    tickerAttached := false
    logLines := []
    ax_sample := fun _ => 0
    ay_sample := fun _ => 0
    az_sample := fun _ => 0
    mx_sample := fun _ => 0
    my_sample := fun _ => 0
    medianIndex := 0
    currentOrientation := { pitch := 0, roll := 0, heading := 0 } }

/-! ## Heading pipeline (src/unnamed/part_000, lines 94-119)

The transcendental `atan2` stage is not embeddable; its output contract is
a yaw angle in degrees in the interval `(-180, 180]`, which the pipeline
below consumes.  The boundary case `-my == 0` of lines 98-99 produces the
exact yaw values `180` (for `-mx < 0`) and `0` degrees, both inside that
interval.  The declination `DECLINATION` (definitions.h, not in src/) is a
parameter. -/

/-- Lines 111-113: add 360 to a negative yaw. -/
def normalizeYaw (y : ℚ) : ℚ :=
  if y < 0 then y + 360 else y

/-- Lines 109-119 on the yaw already converted to degrees: subtract the
declination, normalize, round to the nearest integer degree (`roundf`;
Mathlib `round` agrees with `roundf` on nonnegative values). -/
def headingOf (decl yawDeg : ℚ) : ℤ :=
  round (normalizeYaw (yawDeg - decl))

/-- Lines 98-99 converted to degrees: the `-my == 0` boundary yaw. -/
def boundaryYawDeg (mx : Int) : ℚ :=
  if -mx < 0 then 180 else 0

/-! ## Status aggregation (src/src/api.cpp, Api::collectAndPushNewStatus) -/

/-- The `statusResponse` record tracked by the Api object (api.cpp lines
21-37): every field the collector diffs, plus `uptime` which is refreshed
each tick without counting as a change (line 107-108).  Numeric wire values
are modelled as `Int`, the state name as `String`. -/
structure statusResponse where
  state : String
  batteryVoltage : Int
  batteryLevel : Int
  isCharging : Bool
  lastFullyChargeTime : Int
  lastChargeDuration : Int
  cutterLoad : Int
  cutterRotating : Bool
  uptime : Nat
  wifiSignal : Int
  leftWheelSpd : Int
  rightWheelSpd : Int
  pitch : Int
  roll : Int
  heading : Int
deriving DecidableEq, Repr

/-- The fresh subsystem values sampled during one collection tick (state
name, battery, cutter, wheels, Wi-Fi, orientation) together with the
current uptime in whole seconds (`uint32_t`, so reduced mod `2^32`). -/
structure StatusSample where
  state : String
  batteryVoltage : Int
  batteryLevel : Int
  isCharging : Bool
  lastFullyChargeTime : Int
  lastChargeDuration : Int
  cutterLoad : Int
  cutterRotating : Bool
  wifiSignal : Int
  leftWheelSpd : Int
  rightWheelSpd : Int
  pitch : Int
  roll : Int
  heading : Int
  uptime : Nat
deriving DecidableEq, Repr

/-- The Api object state relevant to status pushing: the cached
`currentStatus` and the uptime second of the previous MQTT publish. -/
structure ApiState where
  currentStatus : statusResponse
  lastMQTT_push : Nat
deriving DecidableEq, Repr

/-- Result of one `collectAndPushNewStatus` tick: the updated Api state and
whether a websocket push and an MQTT publish happened. -/
structure PushResult where
  st : ApiState
  websocketPush : Bool
  mqttPush : Bool
deriving DecidableEq, Repr

/-- `Api::collectAndPushNewStatus` (api.cpp lines 42-125): diff every
tracked field against `currentStatus` (updating the cache), refresh
`uptime` unconditionally; when some tracked field changed, push over the
websocket and additionally publish to MQTT when
`lastMQTT_push < currentStatus.uptime - 10`, where the subtraction is
unsigned 32-bit (it wraps for `uptime < 10`); an MQTT publish records the
current uptime in `lastMQTT_push`. -/
def collectAndPushNewStatus (sample : StatusSample) (a : ApiState) : PushResult :=
  let statusChanged :=
    (a.currentStatus.state != sample.state) ||
    (a.currentStatus.batteryVoltage != sample.batteryVoltage) ||
    (a.currentStatus.batteryLevel != sample.batteryLevel) ||
    (a.currentStatus.isCharging != sample.isCharging) ||
    (a.currentStatus.lastFullyChargeTime != sample.lastFullyChargeTime) ||
    (a.currentStatus.lastChargeDuration != sample.lastChargeDuration) ||
    (a.currentStatus.cutterLoad != sample.cutterLoad) ||
    (a.currentStatus.cutterRotating != sample.cutterRotating) ||
    (a.currentStatus.leftWheelSpd != sample.leftWheelSpd) ||
    (a.currentStatus.rightWheelSpd != sample.rightWheelSpd) ||
    (a.currentStatus.wifiSignal != sample.wifiSignal) ||
    (a.currentStatus.pitch != sample.pitch) ||
    (a.currentStatus.roll != sample.roll) ||
    (a.currentStatus.heading != sample.heading)
  let uptime := sample.uptime % ULONG_MOD
  let newStatus : statusResponse :=
    { state := sample.state
      batteryVoltage := sample.batteryVoltage
      batteryLevel := sample.batteryLevel
      isCharging := sample.isCharging
      lastFullyChargeTime := sample.lastFullyChargeTime
      lastChargeDuration := sample.lastChargeDuration
      cutterLoad := sample.cutterLoad
      cutterRotating := sample.cutterRotating
      uptime := uptime
      wifiSignal := sample.wifiSignal
      leftWheelSpd := sample.leftWheelSpd
      rightWheelSpd := sample.rightWheelSpd
      pitch := sample.pitch
      roll := sample.roll
      heading := sample.heading }
  if statusChanged then
    if a.lastMQTT_push < (uptime + ULONG_MOD - 10) % ULONG_MOD then
      { st := { currentStatus := newStatus, lastMQTT_push := uptime }
        websocketPush := true
        mqttPush := true }
    else
      { st := { currentStatus := newStatus, lastMQTT_push := a.lastMQTT_push }
        websocketPush := true
        mqttPush := false }
  else
    { st := { currentStatus := newStatus, lastMQTT_push := a.lastMQTT_push }
      websocketPush := false
      mqttPush := false }

/-! ## Ring-buffer bookkeeping used by the median-stability proof -/

/-- `writtenWithin n i k j` is true when some step `m < k` of a write
sequence starting at index `i` (advancing by one mod `n` each step) writes
cell `j`. -/
def writtenWithin (n i : Nat) : Nat → Nat → Bool
  | 0, _ => false
  | k + 1, j => writtenWithin n i k j || decide ((i + k) % n = j)

/-- The buffer obtained from `buf` after `k` constant writes of `c`
starting at index `i` mod `n`. -/
def overwrite (c : Int) (n i k : Nat) (buf : Nat → Int) : Nat → Int :=
  fun j => if writtenWithin n i k j then c else buf j

/-! # Theorems -/

/-! ## C1 — transition protocol of `setState` -/

/-- C1 counterexample: the claim says `setState(target)` invokes the
current state's `onExit()` and then the target's `onEnter()`.  On the
concrete transition DOCKED → MOWING of a freshly constructed controller,
the hook-event trace of `setState` is empty: neither `onExit(DOCKED)` nor
`onEnter(MOWING)` is invoked, so the claimed exit-before-enter sequence
does not happen. -/
theorem setState_no_hooks_counterexample :
    (setState (construct .DOCKED).1 .MOWING).2 = [] ∧
    HookEvent.onExitCall .DOCKED ∉ (setState (construct .DOCKED).1 .MOWING).2 ∧
    HookEvent.onEnterCall .MOWING ∉ (setState (construct .DOCKED).1 .MOWING).2 := by
  refine ⟨rfl, ?_, ?_⟩ <;> simp [setState]

/-- C1 amended: `setState(target)` only swaps the active-unit reference to
the unit looked up for the target kind; it leaves the lookup table
observably unchanged and invokes no `onExit`/`onEnter` hook (the publish
side effect is commented out in the source). -/
theorem setState_swap_only (c : StateController) (k : MOWER_STATES) :
    (setState c k).1.currentStateInstance = c.stateLookup k ∧
    (setState c k).1.stateLookup = c.stateLookup ∧
    (setState c k).2 = [] :=
  ⟨rfl, rfl, rfl⟩

/-! ## C2 — completeness of the constructor's state table -/

/-- C2: the claim says the constructor registers one instance per member of
the closed enumeration, so `setState` always finds a registered unit.  The
constructor registers the nine kinds DOCKED..DEMO but neither MANUAL nor
TEST, and `setState(MANUAL)` — reachable from the `/api/v1/manual/*`
handlers — installs a null active unit. -/
theorem constructor_missing_manual_and_test :
    initialLookup .MANUAL = none ∧
    initialLookup .TEST = none ∧
    (construct .DOCKED).1.stateLookup .MANUAL = none ∧
    (setState (construct .DOCKED).1 .MANUAL).1.currentStateInstance = none ∧
    ([MOWER_STATES.DOCKED, .LAUNCHING, .MOWING, .DOCKING, .CHARGING,
        .STUCK, .FLIPPED, .PAUSED, .DEMO].all
      fun k => (initialLookup k).isSome) = true := by
  refine ⟨rfl, rfl, rfl, rfl, ?_⟩
  decide

/-! ## C3 — `setUserChangableState` as the sole external mutation path -/

/-- C3 counterexample: the claim says `setUserChangableState` is the only
externally reachable operation that mutates the controller's current
state.  The `/api/v1/manual/forward` PUT handler mutates the current state
directly through `setState(MANUAL)`: on a freshly constructed controller
(current unit = the DOCKED instance) it changes `currentStateInstance`
without any call to `setUserChangableState`. -/
theorem manual_endpoint_mutates_state_counterexample :
    (manualForwardHandler (construct .DOCKED).1).currentStateInstance ≠
      (construct .DOCKED).1.currentStateInstance := by
  simp [manualForwardHandler, construct, setState, initialLookup]

/-- C3 amended: `setUserChangableState` itself fails closed — an unknown
name, a null active unit, or a rejection by the active state's
`acceptsUserCommand` policy each return `false` and leave the controller
unchanged — but it is not the sole externally reachable mutation path: the
manual-drive PUT handlers mutate the current state directly via
`setState(MANUAL)`. -/
theorem setUserChangableState_fails_closed
    (accepts : MOWER_STATES → MOWER_STATES → Bool)
    (c : StateController) (name : String) :
    (parseStateName name = none →
      setUserChangableState accepts c name = (false, c)) ∧
    (∀ k u, parseStateName name = some k → c.currentStateInstance = some u →
      accepts u.kind k = false →
      setUserChangableState accepts c name = (false, c)) ∧
    (manualForwardHandler c).currentStateInstance = c.stateLookup .MANUAL := by
  refine ⟨?_, ?_, rfl⟩
  · intro h
    simp [setUserChangableState, h]
  · intro k u hk hu hrej
    simp [setUserChangableState, hk, hu, hrej]

/-- Unknown state name used to witness the fail-closed branch. -/
def unknownStateName : String := "HOVER"

/-- Known state name used to witness the policy-rejection branch. -/
def mowingStateName : String := "MOWING"

/-- Witness for the C3 amended theorem at a concrete controller, a policy
that rejects everything, an unknown name and a rejected known name. -/
theorem setUserChangableState_fails_closed_witness :
    (setUserChangableState (fun _ _ => false) (construct .DOCKED).1 unknownStateName =
      (false, (construct .DOCKED).1)) ∧
    (setUserChangableState (fun _ _ => false) (construct .DOCKED).1 mowingStateName =
      (false, (construct .DOCKED).1)) :=
  ⟨(setUserChangableState_fails_closed (fun _ _ => false) (construct .DOCKED).1
      unknownStateName).1 rfl,
   (setUserChangableState_fails_closed (fun _ _ => false) (construct .DOCKED).1
      mowingStateName).2.1 .MOWING { kind := .DOCKED } rfl rfl rfl⟩

/-! ## C4 — `isFlipped` -/

/-- C4: for every estimator state and every threshold value `T` (the
source's fixed `TILT_ANGLE_MAX`), `isFlipped` returns false when the
sensor is not available, and otherwise returns true iff the absolute
pitch or the absolute roll exceeds the threshold. -/
theorem isFlipped_spec (T : Int) (st : IO_Accelerometer) :
    isFlipped T st = true ↔
      isAvailable st = true ∧
        (|(getOrientation st).pitch| > T ∨ |(getOrientation st).roll| > T) := by
  rcases st with ⟨av, tk, lg, a1, a2, a3, m1, m2, mi, o⟩
  cases av <;>
    simp [isFlipped, isAvailable, getOrientation, Bool.or_eq_true, decide_eq_true_eq]

/-! ## C5 — wraparound-safe elapsed time -/

/-- C5: for a mark taken at true time `t1` and a read at true time
`t2 ≥ t1` (each seen through the wrapped 32-bit counter, including the
case where the counter wraps between them), `millisSinceLast` returns
exactly the true elapsed time reduced mod `2^32` (a `Nat`, hence
non-negative) and resets the mark to the current counter value, and
`hasAmountTimePassed` compares that same wrapped elapsed time against the
threshold without touching the mark. -/
theorem timer_wraparound_correct (t1 t2 : Nat) (h : t1 ≤ t2) (amount : Nat) :
    (Timer.millisSinceLast { previousMillis := millis t1 } t2).1 =
      (t2 - t1) % ULONG_MOD ∧
    (Timer.millisSinceLast { previousMillis := millis t1 } t2).2 =
      { previousMillis := millis t2 } ∧
    (Timer.hasAmountTimePassed { previousMillis := millis t1 } t2 amount).1 =
      decide ((t2 - t1) % ULONG_MOD ≥ amount) := by
  have key : (millis t2 + ULONG_MOD - millis t1) % ULONG_MOD =
      (t2 - t1) % ULONG_MOD := by
    simp only [millis, ULONG_MOD]
    omega
  refine ⟨?_, rfl, ?_⟩
  · simpa [Timer.millisSinceLast] using key
  · simp only [Timer.hasAmountTimePassed, key]

/-- Witness for C5 across a counter wrap: the mark is taken 6 ms before
the counter wraps and the read happens 10 ms after, so the raw counter
went from 4294967290 down to 10, yet the computed elapsed time is 16 ms. -/
theorem timer_wraparound_correct_witness :
    (Timer.millisSinceLast { previousMillis := millis 4294967290 } 4294967306).1 =
      (4294967306 - 4294967290) % ULONG_MOD ∧
    (Timer.millisSinceLast { previousMillis := millis 4294967290 } 4294967306).2 =
      { previousMillis := millis 4294967306 } ∧
    (Timer.hasAmountTimePassed { previousMillis := millis 4294967290 } 4294967306 12).1 =
      decide ((4294967306 - 4294967290) % ULONG_MOD ≥ 12) :=
  timer_wraparound_correct 4294967290 4294967306 (by norm_num) 12

/-! ## C9 — frame effects of the non-consuming reads -/

/-- C9 counterexample: the claim says the non-consuming read returns the
time elapsed since the last mark without modifying the mark.  With the
mark at counter value 5 and the counter now at 100, `Timer::getMillis`
returns 100 — the current counter value, not the elapsed 95 — and
overwrites the mark with 100. -/
theorem getMillis_mutates_mark_counterexample :
    ((Timer.mk 5).getMillis 100).2.previousMillis = 100 ∧
    ((Timer.mk 5).getMillis 100).2.previousMillis ≠ 5 ∧
    ((Timer.mk 5).getMillis 100).1 ≠ 100 - 5 := by
  refine ⟨rfl, ?_, ?_⟩ <;> decide

/-- C9 amended: `hasAmountTimePassed(threshold)` returns true iff the
wrapped time since the mark is at least the threshold and leaves the timer
(in particular its mark) unchanged; the other non-consuming read,
`getMillis`, does not return an elapsed time at all — it returns the
current counter value and resets the mark to it; the consuming elapsed
read is `millisSinceLast`. -/
theorem hasAmountTimePassed_frame (t1 t2 amount : Nat) (h : t1 ≤ t2) :
    (Timer.hasAmountTimePassed { previousMillis := millis t1 } t2 amount).2 =
      { previousMillis := millis t1 } ∧
    ((Timer.hasAmountTimePassed { previousMillis := millis t1 } t2 amount).1 = true ↔
      (t2 - t1) % ULONG_MOD ≥ amount) ∧
    (Timer.getMillis { previousMillis := millis t1 } t2).1 = millis t2 ∧
    (Timer.getMillis { previousMillis := millis t1 } t2).2.previousMillis = millis t2 := by
  have key : (millis t2 + ULONG_MOD - millis t1) % ULONG_MOD =
      (t2 - t1) % ULONG_MOD := by
    simp only [millis, ULONG_MOD]
    omega
  refine ⟨rfl, ?_, rfl, rfl⟩
  simp [Timer.hasAmountTimePassed, key]

/-- Witness for the C9 amended theorem at mark time 5, read time 100 and
threshold 95. -/
theorem hasAmountTimePassed_frame_witness :
    (Timer.hasAmountTimePassed { previousMillis := millis 5 } 100 95).2 =
      { previousMillis := millis 5 } ∧
    ((Timer.hasAmountTimePassed { previousMillis := millis 5 } 100 95).1 = true ↔
      (100 - 5) % ULONG_MOD ≥ 95) ∧
    (Timer.getMillis { previousMillis := millis 5 } 100).1 = millis 100 ∧
    (Timer.getMillis { previousMillis := millis 5 } 100).2.previousMillis = millis 100 :=
  hasAmountTimePassed_frame 5 100 95 (by norm_num)

/-! ## C6 — heading normalization -/

/-- C6 counterexample: the claim says the published heading is always in
`[0, 360)`.  Take a raw reading whose yaw converts to `-1/2` degree (well
inside the atan2 output range `(-180, 180]`) and a zero declination: the
normalization step produces `359.5`, and rounding to the nearest integer
degree publishes `360`, which is outside `[0, 360)`. -/
theorem heading_rounds_to_360_counterexample :
    (-180 : ℚ) < -1/2 ∧ (-1/2 : ℚ) ≤ 180 ∧
    headingOf 0 (-1/2) = 360 ∧ ¬ (headingOf 0 (-1/2) < 360) := by
  have h1 : normalizeYaw (-1/2 - 0) = 719/2 := by
    norm_num [normalizeYaw]
  have h2 : headingOf 0 (-1/2) = 360 := by
    rw [headingOf, h1, round_eq]
    norm_num [Int.floor_eq_iff]
  exact ⟨by norm_num, by norm_num, h2, by rw [h2]; omega⟩

/-- C6 amended: for every yaw in the atan2 output range `(-180, 180]` —
which contains the `-my == 0` boundary values `0` and `180` degrees of
lines 98-99 — and every declination in `(-180, 180]`, the pre-rounding
normalized heading lies in `[0, 360)`; the published rounded heading is
only guaranteed to lie in the closed interval `[0, 360]`, and for every
declination in `[-179, 179]` there is a yaw in range whose published
heading is exactly `360`. -/
theorem heading_normalization_amended (decl y : ℚ)
    (h1 : -180 < y) (h2 : y ≤ 180) (hd1 : -180 < decl) (hd2 : decl ≤ 180) :
    (0 ≤ normalizeYaw (y - decl) ∧ normalizeYaw (y - decl) < 360) ∧
    (0 ≤ headingOf decl y ∧ headingOf decl y ≤ 360) ∧
    (∀ d : ℚ, -179 ≤ d → d ≤ 179 →
      ∃ y2 : ℚ, -180 < y2 ∧ y2 ≤ 180 ∧ headingOf d y2 = 360) := by
  have hbounds : 0 ≤ normalizeYaw (y - decl) ∧ normalizeYaw (y - decl) < 360 := by
    unfold normalizeYaw
    split <;> constructor <;> linarith
  refine ⟨hbounds, ⟨?_, ?_⟩, ?_⟩
  · rw [headingOf, round_eq]
    have : (0 : ℚ) ≤ normalizeYaw (y - decl) + 1/2 := by linarith [hbounds.1]
    exact_mod_cast Int.le_floor.2 (by exact_mod_cast this)
  · rw [headingOf, round_eq]
    have hlt : normalizeYaw (y - decl) + 1/2 < ((361 : ℤ) : ℚ) := by
      push_cast
      linarith [hbounds.2]
    have hfl := Int.floor_lt.2 hlt
    omega
  · intro d hdl hdr
    refine ⟨d - 1/2, by linarith, by linarith, ?_⟩
    have hnv : normalizeYaw (d - 1/2 - d) = 719/2 := by
      norm_num [normalizeYaw]
    rw [headingOf, hnv, round_eq]
    norm_num [Int.floor_eq_iff]

/-- Witness for the C6 amended theorem at zero declination and the
`-my == 0, -mx < 0` boundary yaw of 180 degrees. -/
theorem heading_normalization_amended_witness :
    ((0 ≤ normalizeYaw (boundaryYawDeg 1 - 0) ∧
        normalizeYaw (boundaryYawDeg 1 - 0) < 360) ∧
      (0 ≤ headingOf 0 (boundaryYawDeg 1) ∧
        headingOf 0 (boundaryYawDeg 1) ≤ 360) ∧
      (∀ d : ℚ, -179 ≤ d → d ≤ 179 →
        ∃ y2 : ℚ, -180 < y2 ∧ y2 ≤ 180 ∧ headingOf d y2 = 360)) ∧
    boundaryYawDeg 1 = 180 :=
  ⟨heading_normalization_amended 0 (boundaryYawDeg 1)
      (by norm_num [boundaryYawDeg]) (by norm_num [boundaryYawDeg])
      (by norm_num) (by norm_num),
   by norm_num [boundaryYawDeg]⟩

/-! ## C8 — sensor initialization failure -/

/-- C8: when `imu.begin()` fails, `start` appends the failure log line and
returns normally with everything else untouched: the sampling ticker is
not attached, `isAvailable()` stays false, the published orientation stays
at its prior (default) value, and `isFlipped()` reports false for every
threshold. -/
theorem start_failure_safe (prime : IO_Accelerometer → IO_Accelerometer)
    (st : IO_Accelerometer) (T : Int)
    (hav : st.available = false) (htk : st.tickerAttached = false) :
    isAvailable (start false prime st) = false ∧
    (start false prime st).tickerAttached = false ∧
    (start false prime st).logLines = st.logLines ++ [accelInitFailureMsg] ∧
    getOrientation (start false prime st) = getOrientation st ∧
    isFlipped T (start false prime st) = false := by
  refine ⟨?_, ?_, ?_, ?_, ?_⟩ <;>
    simp [start, isAvailable, getOrientation, isFlipped, hav, htk]

/-- Witness for C8 at the freshly constructed estimator object and a
threshold of 45 degrees. -/
theorem start_failure_safe_witness :
    isAvailable (start false id initialAccelerometer) = false ∧
    (start false id initialAccelerometer).tickerAttached = false ∧
    (start false id initialAccelerometer).logLines =
      initialAccelerometer.logLines ++ [accelInitFailureMsg] ∧
    getOrientation (start false id initialAccelerometer) =
      getOrientation initialAccelerometer ∧
    isFlipped 45 (start false id initialAccelerometer) = false :=
  start_failure_safe id initialAccelerometer 45 rfl rfl

/-! ## C10 — MQTT publish rate limiting -/

/-- A cached status as it looks right after boot (state name empty,
numeric fields zero). -/
def bootStatus : statusResponse :=
  { state := ""
    batteryVoltage := 0
    batteryLevel := 0
    isCharging := false
    lastFullyChargeTime := 0
    lastChargeDuration := 0
    cutterLoad := 0
    cutterRotating := false
    uptime := 0
    wifiSignal := 0
    leftWheelSpd := 0
    rightWheelSpd := 0
    pitch := 0
    roll := 0
    heading := 0 }

/-- The sample collected on a tick 3 seconds after boot: the state name
has changed to DOCKED, everything else still at its boot value. -/
def earlySample1 : StatusSample :=
  { state := "DOCKED"
    batteryVoltage := 0
    batteryLevel := 0
    isCharging := false
    lastFullyChargeTime := 0
    lastChargeDuration := 0
    cutterLoad := 0
    cutterRotating := false
    wifiSignal := 0
    leftWheelSpd := 0
    rightWheelSpd := 0
    pitch := 0
    roll := 0
    heading := 0
    uptime := 3 }

/-- The sample collected on a tick one second later: the state name has
changed again (the mower started launching). -/
def earlySample2 : StatusSample :=
  { state := "LAUNCHING"
    batteryVoltage := 0
    batteryLevel := 0
    isCharging := false
    lastFullyChargeTime := 0
    lastChargeDuration := 0
    cutterLoad := 0
    cutterRotating := false
    wifiSignal := 0
    leftWheelSpd := 0
    rightWheelSpd := 0
    pitch := 0
    roll := 0
    heading := 0
    uptime := 4 }

/-- C10: the claim (and the source's own comment, api.cpp line 117: MQTT
can settle for an update every 10 seconds) says MQTT is published at most
once per 10-second window.  At the failing input — `lastMQTT_push = 0`
and two status ticks with changed fields at uptime 3 s and 4 s — the
unsigned 32-bit guard `lastMQTT_push < uptime - 10` wraps for
`uptime < 10`, so both ticks publish to MQTT, one second apart. -/
theorem mqtt_rate_limit_underflow :
    (collectAndPushNewStatus earlySample1 { currentStatus := bootStatus, lastMQTT_push := 0 }).mqttPush = true ∧
    (collectAndPushNewStatus earlySample2
      (collectAndPushNewStatus earlySample1 { currentStatus := bootStatus, lastMQTT_push := 0 }).st).mqttPush = true ∧
    earlySample2.uptime - earlySample1.uptime < 10 := by
  refine ⟨?_, ?_, ?_⟩ <;> decide

/-! ## C7 — median filter stability -/

/-- `writtenWithin` characterized: cell `j` was written within `k` steps
iff some step `m < k` wrote it. -/
theorem writtenWithin_iff (n i : Nat) :
    ∀ (k j : Nat), writtenWithin n i k j = true ↔ ∃ m, m < k ∧ (i + m) % n = j := by
  intro k
  induction k with
  | zero =>
    intro j
    simp [writtenWithin]
  | succ k ih =>
    intro j
    simp only [writtenWithin, Bool.or_eq_true, decide_eq_true_eq, ih]
    constructor
    · rintro (⟨m, hm, hmj⟩ | hkj)
      · exact ⟨m, by omega, hmj⟩
      · exact ⟨k, by omega, hkj⟩
    · rintro ⟨m, hm, hmj⟩
      have hcase : m < k ∨ m = k := by omega
      rcases hcase with h | rfl
      · exact Or.inl ⟨m, h, hmj⟩
      · exact Or.inr hmj

/-- After `n` steps starting anywhere inside the window, every cell of the
window has been written: the write index cycles through all residues. -/
theorem writtenWithin_full (n i j : Nat) (hi : i < n) (hj : j < n) :
    writtenWithin n i n j = true := by
  rw [writtenWithin_iff]
  by_cases h : i ≤ j
  · refine ⟨j - i, by omega, ?_⟩
    rw [show i + (j - i) = j by omega]
    exact Nat.mod_eq_of_lt hj
  · refine ⟨n - i + j, by omega, ?_⟩
    rw [show i + (n - i + j) = n + j by omega, Nat.add_mod_left]
    exact Nat.mod_eq_of_lt hj

/-- Writing one more constant sample on top of `k` previous constant
writes is the same as `k + 1` constant writes. -/
theorem overwrite_step (c : Int) (n i k : Nat) (buf : Nat → Int) :
    (fun j => if j = (i + k) % n then c else overwrite c n i k buf j) =
      overwrite c n i (k + 1) buf := by
  funext j
  by_cases hj : j = (i + k) % n
  · simp [overwrite, writtenWithin, hj]
  · simp [overwrite, writtenWithin, hj, Ne.symm hj]

/-- A window whose cells all hold `c` reads as the constant list. -/
theorem window_eq_replicate (c : Int) :
    ∀ (n : Nat) (buf : Nat → Int), (∀ j, j < n → buf j = c) →
      window n buf = List.replicate n c := by
  intro n
  induction n with
  | zero =>
    intro buf h
    rfl
  | succ n ih =>
    intro buf h
    rw [window, List.range_succ, List.map_append, List.replicate_succ']
    have hw : (List.range n).map buf = List.replicate n c :=
      ih buf fun j hj => h j (by omega)
    rw [show (List.range n).map buf = window n buf from rfl] at hw
    rw [window] at hw
    rw [hw, List.map_singleton, h n (by omega)]

/-- Inserting `c` into a constant-`c` sorted list prepends it. -/
theorem insertSorted_replicate (c : Int) (k : Nat) :
    insertSorted c (List.replicate k c) = List.replicate (k + 1) c := by
  cases k with
  | zero => rfl
  | succ k => simp [List.replicate_succ, insertSorted]

/-- Sorting a constant list is the identity. -/
theorem sortList_replicate (c : Int) (n : Nat) :
    sortList (List.replicate n c) = List.replicate n c := by
  induction n with
  | zero => rfl
  | succ n ih =>
    simp only [sortList] at ih ⊢
    rw [List.replicate_succ, List.foldr_cons, ih, insertSorted_replicate,
      List.replicate_succ]

/-- Indexing a constant list inside its bounds yields the constant. -/
theorem getD_replicate_eq (c : Int) :
    ∀ (n i : Nat), i < n → (List.replicate n c).getD i 0 = c := by
  intro n
  induction n with
  | zero =>
    intro i h
    omega
  | succ n ih =>
    intro i h
    cases i with
    | zero => simp [List.replicate_succ]
    | succ i =>
      rw [List.replicate_succ, List.getD_cons_succ]
      exact ih i (by omega)

/-- The modelled median of a constant window is that constant: the filter
passes a saturated constant signal through exactly. -/
theorem calculateMedian_replicate (c : Int) (n : Nat) (hn : 0 < n) :
    calculateMedian (List.replicate n c) = c := by
  rw [calculateMedian, sortList_replicate, List.length_replicate]
  exact getD_replicate_eq c n (n / 2) (Nat.div_lt_self hn (by norm_num))

/-- The median over a window saturated by `n` constant writes is the
constant. -/
theorem saturated_median (c : Int) (m i : Nat) (buf : Nat → Int) (hi : i < m + 1) :
    calculateMedian (window (m + 1) (overwrite c (m + 1) i (m + 1) buf)) = c := by
  rw [window_eq_replicate c (m + 1) _ fun j hj => by
    simp [overwrite, writtenWithin_full (m + 1) i j hi hj]]
  exact calculateMedian_replicate c (m + 1) (by omega)

/-- State evolution of `getReadings` under a constant reading: after `k`
sampling ticks the estimator is still available, its write index has
advanced by `k` mod `n`, and each ring buffer equals its initial content
overwritten by `k` constant writes. -/
theorem getReadings_iterate_state (n : Nat)
    (derive : Int → Int → Int → Int → Int → orientation) (r : ImuReading) :
    ∀ (k : Nat) (st : IO_Accelerometer), st.available = true → st.medianIndex < n →
      ((getReadings n derive r)^[k] st).available = true ∧
      ((getReadings n derive r)^[k] st).medianIndex = (st.medianIndex + k) % n ∧
      ((getReadings n derive r)^[k] st).ax_sample =
        overwrite r.ax n st.medianIndex k st.ax_sample ∧
      ((getReadings n derive r)^[k] st).ay_sample =
        overwrite r.ay n st.medianIndex k st.ay_sample ∧
      ((getReadings n derive r)^[k] st).az_sample =
        overwrite r.az n st.medianIndex k st.az_sample ∧
      ((getReadings n derive r)^[k] st).mx_sample =
        overwrite r.mx n st.medianIndex k st.mx_sample ∧
      ((getReadings n derive r)^[k] st).my_sample =
        overwrite r.my n st.medianIndex k st.my_sample := by
  intro k
  induction k with
  | zero =>
    intro st hav hidx
    simp only [Function.iterate_zero_apply]
    have hov : ∀ (c : Int) (buf : Nat → Int), buf = overwrite c n st.medianIndex 0 buf := by
      intro c buf
      funext j
      simp [overwrite, writtenWithin]
    exact ⟨hav, (Nat.mod_eq_of_lt hidx).symm, hov _ _, hov _ _, hov _ _, hov _ _, hov _ _⟩
  | succ k ih =>
    intro st hav hidx
    obtain ⟨h1, h2, h3, h4, h5, h6, h7⟩ := ih st hav hidx
    rw [Function.iterate_succ_apply']
    simp only [getReadings, h1, if_true]
    refine ⟨trivial, ?_, ?_, ?_, ?_, ?_, ?_⟩
    · show (((getReadings n derive r)^[k] st).medianIndex + 1) % n = _
      rw [h2, Nat.mod_add_mod, Nat.add_assoc]
    · simp only [h2, h3]
      exact overwrite_step r.ax n st.medianIndex k st.ax_sample
    · simp only [h2, h4]
      exact overwrite_step r.ay n st.medianIndex k st.ay_sample
    · simp only [h2, h5]
      exact overwrite_step r.az n st.medianIndex k st.az_sample
    · simp only [h2, h6]
      exact overwrite_step r.mx n st.medianIndex k st.mx_sample
    · simp only [h2, h7]
      exact overwrite_step r.my n st.medianIndex k st.my_sample

/-- C7: feeding the estimator the same reading on every sampling tick for
one full window length (`n = GYRO_MEDIAN_SAMPLES` consecutive ticks) makes
every per-axis window constant, the per-axis medians equal the raw axis
values exactly (the filter is a true median), and the published
orientation equals `derive` — the source's atan2/degree/rounding block —
applied directly to that constant reading. -/
theorem median_filter_stability (n : Nat)
    (derive : Int → Int → Int → Int → Int → orientation) (r : ImuReading)
    (st : IO_Accelerometer) (hn : 0 < n) (hav : st.available = true)
    (hidx : st.medianIndex < n) :
    ((getReadings n derive r)^[n] st).currentOrientation =
      derive r.ax r.ay r.az r.mx r.my := by
  obtain ⟨m, rfl⟩ : ∃ m, n = m + 1 := ⟨n - 1, by omega⟩
  obtain ⟨h1, h2, h3, h4, h5, h6, h7⟩ :=
    getReadings_iterate_state (m + 1) derive r m st hav hidx
  rw [Function.iterate_succ_apply']
  simp only [getReadings, h1, if_true]
  show derive _ _ _ _ _ = _
  simp only [h2, h3, h4, h5, h6, h7]
  rw [overwrite_step r.ax, overwrite_step r.ay, overwrite_step r.az,
    overwrite_step r.mx, overwrite_step r.my]
  rw [saturated_median r.ax m st.medianIndex st.ax_sample hidx,
    saturated_median r.ay m st.medianIndex st.ay_sample hidx,
    saturated_median r.az m st.medianIndex st.az_sample hidx,
    saturated_median r.mx m st.medianIndex st.mx_sample hidx,
    saturated_median r.my m st.medianIndex st.my_sample hidx]

/-- Concrete derivation block used by the C7 witness. -/
def witnessDerive : Int → Int → Int → Int → Int → orientation :=
  fun a b c d e => { pitch := a + b, roll := c - d, heading := e }

/-- Concrete constant IMU reading used by the C7 witness. -/
def witnessReading : ImuReading :=
  { ax := 1, ay := 2, az := 3, mx := 4, my := 5 }

/-- Concrete available estimator used by the C7 witness. -/
def witnessEstimator : IO_Accelerometer :=
  { initialAccelerometer with available := true }

/-- Witness for C7 at window length 3: three constant ticks publish the
orientation derived directly from the constant reading. -/
theorem median_filter_stability_witness :
    ((getReadings 3 witnessDerive witnessReading)^[3] witnessEstimator).currentOrientation =
      witnessDerive witnessReading.ax witnessReading.ay witnessReading.az
        witnessReading.mx witnessReading.my :=
  median_filter_stability 3 witnessDerive witnessReading witnessEstimator
    (by norm_num) rfl (by norm_num [witnessEstimator, initialAccelerometer])

end Liam
